import Mathlib

/-!
Verification of the mock-interview backend (Express + Mongoose + Gemini).

The repository ships several near-duplicate revisions of the same server:
the head document of `server.js` (called V0 below), a second revision in
`server.js` (same handler logic as `part_000`), and the unnamed files
`part_000` .. `part_003`.  The interview endpoint `POST /api/interview` is
embedded here once per behaviourally distinct revision:

  * `handleTurn`   — `part_000` / `part_003` / second `server.js` document:
    load-or-create, sentinel substitution for an empty first turn, push the
    user turn, stream the reply with the plain `chunk.text()` accumulator,
    push the model turn, save.
  * `handleTurnV0` — head document of `server.js`: separate load try/catch
    that refreshes `jobTitle`, first-turn outbound message
    `userResponse || "start interview"`, defensive chunk accumulation, and
    a user turn appended only when `userResponse !== "start interview"`.
  * `handleTurnV1` — `part_001`: separate load try/catch with `jobTitle`
    refresh; on a first turn the sentinel replaces an empty `userResponse`
    and is recorded as the first user turn after the reply arrives;
    defensive accumulation.
  * `handleTurnV2` — `part_002`: a brand-new session skips the backend
    entirely and hardcodes the opening question; an existing session
    appends the user turn, streams with the plain accumulator, appends the
    model turn.

External collaborators (MongoDB via Mongoose, the Gemini streaming client)
are modelled by an environment of oracles: whether `findOne` throws,
whether `sendMessageStream`/stream iteration throws or which chunks it
yields, and whether `save` throws.  Effects (messages actually sent to the
backend, number of `save` calls, whether `new ChatSession` ran) are
recorded explicitly so that the claims about side effects are statable.

JSON `null` request fields are not exercised by any claim and are omitted
from the request model; an absent key is `JsVal.undef`.  The `timestamp`
field of a turn (a Mongoose `Date.now` default) is likewise irrelevant to
every claim and omitted.
-/

/-- A JSON value a request field can hold: absent/undefined, or a string. -/
inductive JsVal where
  | undef
  | str (s : String)
deriving DecidableEq, Repr

/-- JavaScript falsiness for request fields: `undefined` and `""` are falsy. -/
def JsVal.falsy : JsVal → Bool
  | .undef => true
  | .str s => s == ""

/-- The string carried by a request field; only used after validation,
which guarantees the field is a string. -/
def JsVal.asString : JsVal → String
  | .undef => ""
  | .str s => s

/-- One message of the dialogue, as stored in the `history` array of a
`ChatSession` document (role `"user"` or `"model"`, plus text). -/
structure Turn where
  role : String
  text : String
deriving DecidableEq, Repr

/-- A `ChatSession` MongoDB document. -/
structure ChatSession where
  sessionId : String
  jobTitle : String
  history : List Turn
deriving DecidableEq, Repr

/-- The session collection: a list of documents, looked up by `sessionId`. -/
abbrev Store := List ChatSession

/-- `ChatSession.findOne({ sessionId })`: first document with the key. -/
def findOne (store : Store) (sid : String) : Option ChatSession :=
  store.find? (fun s => s.sessionId == sid)

/-- `chatSession.save()`: replace the document with this `sessionId`, or
insert it if absent (the schema declares `sessionId` unique). -/
def upsert (store : Store) (s : ChatSession) : Store :=
  match store with
  | [] => [s]
  | t :: ts => if t.sessionId == s.sessionId then s :: ts else t :: upsert ts s

/-- The shape of the `text` member of a streamed chunk: a zero-argument
accessor returning a string, a plain string field, or neither. -/
inductive ChunkText where
  | fn (s : String)
  | field (s : String)
  | other
deriving DecidableEq, Repr

/-- A streamed chunk: its `text` member, and the nested
`candidates[0].content.parts[0].text` when that whole path is present. -/
structure Chunk where
  text : ChunkText
  candidates : Option String
deriving DecidableEq, Repr

/-- Stream accumulation of `part_000` / `part_003` / the second `server.js`
document: `fullResponse += chunk.text()` unconditionally, so a chunk whose
`text` is not a function raises a `TypeError` (modelled as `.error`). -/
def accumText (chunks : List Chunk) : Except String String :=
  chunks.foldlM
    (fun acc c =>
      match c.text with
      | .fn s => .ok (acc ++ s)
      | _ => .error "chunk.text is not a function") ""

/-- One step of the defensive accumulation loop of the `server.js` head
document and `part_001`: probe the accessor shape, then the plain-string
shape, then the nested candidates path; otherwise log a warning and skip
the chunk. -/
def chunkStep (acc : String) (c : Chunk) : String :=
  match c.text with
  | .fn s => acc ++ s
  | .field s => acc ++ s
  | .other =>
    match c.candidates with
    | some t => acc ++ t
    | none => acc

/-- Defensive stream accumulation of the `server.js` head document and
`part_001`. -/
def accumTextDefensive (chunks : List Chunk) : String :=
  chunks.foldl chunkStep ""

/-- Modelled from the spec: whether a chunk exposes one of the three
recognized shapes (accessor, string field, nested candidates path). -/
def specChunkRecognized (c : Chunk) : Bool :=
  match c.text with
  | .fn _ => true
  | .field _ => true
  | .other => c.candidates.isSome

/-- Modelled from the spec: the text a chunk exposes through the first of
the three recognized shapes (empty when none matches). -/
def specChunkText (c : Chunk) : String :=
  match c.text with
  | .fn s => s
  | .field s => s
  | .other =>
    match c.candidates with
    | some t => t
    | none => ""

/-- Modelled from the spec: the per-chunk extracted texts concatenated in
stream order, contributing the empty string for an unrecognized chunk. -/
def specAccum (chunks : List Chunk) : String :=
  match chunks with
  | [] => ""
  | c :: cs =>
    (if specChunkRecognized c then specChunkText c else "") ++ specAccum cs

/-- Outcomes of the external collaborators for one request: whether the
session load throws (with the thrown message), whether the backend call or
stream iteration throws or which chunks it yields, and whether the save
throws. -/
structure Env where
  loadError : Option String
  backend : Except String (List Chunk)
  saveError : Option String
deriving Repr

/-- Observable side effects of one request: the messages passed to
`sendMessageStream` in order, the number of `save` calls, and whether the
`new ChatSession(...)` constructor ran. -/
structure TurnEffects where
  sentMessages : List String
  saveCalls : Nat
  constructed : Bool
deriving DecidableEq, Repr

/-- Effects of a request that performed none of the tracked actions. -/
def noTurnEffects : TurnEffects := ⟨[], 0, false⟩

/-- What the handler sends back: an error status with its body message, or
a 200 with the reply text and the full history. -/
inductive HandlerOutcome where
  | err (status : Nat) (message : String)
  | ok (response : String) (history : List Turn)
deriving DecidableEq, Repr

def HandlerOutcome.isOk : HandlerOutcome → Bool
  | .ok _ _ => true
  | .err _ _ => false

def HandlerOutcome.status : HandlerOutcome → Nat
  | .ok _ _ => 200
  | .err st _ => st

/-- Result of one request: the HTTP outcome, the store afterwards, and the
recorded effects. -/
structure TurnResult where
  outcome : HandlerOutcome
  store : Store
  effects : TurnEffects
deriving DecidableEq, Repr

/-- The body of a `POST /api/interview` request:
`{ sessionId, jobTitle, userResponse }`. -/
structure Req where
  sessionId : JsVal
  jobTitle : JsVal
  userResponse : JsVal
deriving DecidableEq, Repr

/-- The shared validation guard
`!sessionId || !jobTitle || userResponse === undefined` (all revisions;
the later ones also test `null`, which the request model omits). -/
def missingField (req : Req) : Bool :=
  req.sessionId.falsy || req.jobTitle.falsy || req.userResponse == JsVal.undef

/-- Substring test used to model the `error.message.includes(...)`
dispatch in the catch clauses. -/
def inclChars (sub : List Char) : List Char → Bool
  | [] => sub.isEmpty
  | c :: cs => sub.isPrefixOf (c :: cs) || inclChars sub cs

def includesStr (s pat : String) : Bool := inclChars pat.toList s.toList

/-- The catch-clause message dispatch of `part_000`. -/
def catchMessage (m : String) : String :=
  if includesStr m "Database" ||
      (includesStr m "MongoDB" && !includesStr m "Cast to ObjectId") then
    "Failed to access chat session in database."
  else if includesStr m "Gemini AI" || includesStr m "GoogleGenerativeAI" then
    "Failed to get AI response. Please check backend logs and GOOGLE_API_KEY."
  else
    "Failed to process interview request. Please check backend logs for details."

/-- The catch-clause dispatch of `part_002` (also picks the status). -/
def catchMessageV2 (m : String) : Nat × String :=
  if includesStr m "API key not valid" || includesStr m "INVALID_ARGUMENT" then
    (401, "Gemini API Key is invalid or not properly configured.")
  else if includesStr m "Database" ||
      (includesStr m "MongoDB" && !includesStr m "Cast to ObjectId") then
    (500, "Failed to access chat session in database.")
  else
    (500, "Failed to process interview request or get AI response. Please check backend logs for details.")

def missingFieldsMessage : String :=
  "Missing sessionId, jobTitle, or userResponse in request body."

def dbFailMessage : String := "Failed to access chat session in database."

def failMessageV0 : String :=
  "Failed to get response from AI interviewer or save session."

def failMessageV1 : String :=
  "Failed to process interview request or get AI response. Please check backend logs for details."

/-- The outbound message of `part_000` / `part_003` / the second
`server.js` document: substitute the sentinel when the history is empty
and `userResponse` is the empty string. -/
def effectiveMessage (hist : List Turn) (ur : String) : String :=
  if hist.length == 0 && ur == "" then "start a mock interview" else ur

/-- Load-or-create of `part_000` / `part_002` / `part_003` / the second
`server.js` document: an existing document is used as found (`jobTitle`
not refreshed); otherwise `new ChatSession({sessionId, jobTitle,
history: []})`.  The flag records whether the constructor ran. -/
def sessionFor (store : Store) (sid jt : String) : ChatSession × Bool :=
  match findOne store sid with
  | some s => (s, false)
  | none => (⟨sid, jt, []⟩, true)

/-- Load-or-create of the `server.js` head document and `part_001`: an
existing document additionally gets `chatSession.jobTitle = jobTitle`. -/
def sessionForRefresh (store : Store) (sid jt : String) : ChatSession × Bool :=
  match findOne store sid with
  | some s => (⟨s.sessionId, jt, s.history⟩, false)
  | none => (⟨sid, jt, []⟩, true)

/-- Post-load phase of `part_000` / `part_003` / second `server.js`
document: push the user turn holding the effective outbound message, send
it, accumulate with the plain accessor, push the model turn, save,
respond with the reply and the full history. -/
def handleTurnCore (env : Env) (store : Store) (sess : ChatSession)
    (constructed : Bool) (ur : String) : TurnResult :=
  match env.backend with
  | .error m =>
    ⟨.err 500 (catchMessage m), store,
      ⟨[effectiveMessage sess.history ur], 0, constructed⟩⟩
  | .ok chunks =>
    match accumText chunks with
    | .error m =>
      ⟨.err 500 (catchMessage m), store,
        ⟨[effectiveMessage sess.history ur], 0, constructed⟩⟩
    | .ok reply =>
      match env.saveError with
      | some m =>
        ⟨.err 500 (catchMessage m), store,
          ⟨[effectiveMessage sess.history ur], 1, constructed⟩⟩
      | none =>
        ⟨.ok reply
            (sess.history ++
              [⟨"user", effectiveMessage sess.history ur⟩, ⟨"model", reply⟩]),
          upsert store
            ⟨sess.sessionId, sess.jobTitle,
              sess.history ++
                [⟨"user", effectiveMessage sess.history ur⟩, ⟨"model", reply⟩]⟩,
          ⟨[effectiveMessage sess.history ur], 1, constructed⟩⟩

/-- The interview handler of `part_000` and `part_003` (identical turn
logic; also the second `server.js` document up to message texts). -/
def handleTurn (env : Env) (store : Store) (req : Req) : TurnResult :=
  if missingField req then
    ⟨.err 400 missingFieldsMessage, store, noTurnEffects⟩
  else
    match env.loadError with
    | some m => ⟨.err 500 (catchMessage m), store, noTurnEffects⟩
    | none =>
      handleTurnCore env store
        (sessionFor store req.sessionId.asString req.jobTitle.asString).1
        (sessionFor store req.sessionId.asString req.jobTitle.asString).2
        req.userResponse.asString

/-- Post-load phase of the `server.js` head document: first-turn outbound
message `userResponse || "start interview"`, defensive accumulation, user
turn pushed only when `userResponse !== "start interview"`, then the model
turn, save, respond. -/
def sentV0 (hist : List Turn) (ur : String) : String :=
  if hist.length == 0 then (if ur == "" then "start interview" else ur) else ur

def pushedV0 (hist : List Turn) (ur : String) (reply : String) : List Turn :=
  (if ur == "start interview" then hist else hist ++ [⟨"user", ur⟩]) ++
    [⟨"model", reply⟩]

def handleTurnCoreV0 (env : Env) (store : Store) (sess : ChatSession)
    (constructed : Bool) (ur : String) : TurnResult :=
  match env.backend with
  | .error _ =>
    ⟨.err 500 failMessageV0, store, ⟨[sentV0 sess.history ur], 0, constructed⟩⟩
  | .ok chunks =>
    match env.saveError with
    | some _ =>
      ⟨.err 500 failMessageV0, store, ⟨[sentV0 sess.history ur], 1, constructed⟩⟩
    | none =>
      ⟨.ok (accumTextDefensive chunks)
          (pushedV0 sess.history ur (accumTextDefensive chunks)),
        upsert store
          ⟨sess.sessionId, sess.jobTitle,
            pushedV0 sess.history ur (accumTextDefensive chunks)⟩,
        ⟨[sentV0 sess.history ur], 1, constructed⟩⟩

/-- The interview handler of the head document of `server.js`: separate
load try/catch (refreshing `jobTitle`), short validation message. -/
def handleTurnV0 (env : Env) (store : Store) (req : Req) : TurnResult :=
  if missingField req then
    ⟨.err 400 "Missing sessionId, jobTitle, or userResponse", store, noTurnEffects⟩
  else
    match env.loadError with
    | some _ => ⟨.err 500 dbFailMessage, store, noTurnEffects⟩
    | none =>
      handleTurnCoreV0 env store
        (sessionForRefresh store req.sessionId.asString req.jobTitle.asString).1
        (sessionForRefresh store req.sessionId.asString req.jobTitle.asString).2
        req.userResponse.asString

/-- Post-load phase of `part_001`: on a first turn the outbound message is
`userResponse || "start a mock interview"` and is recorded as the first
user turn only after the reply arrives; on a later turn `userResponse` is
recorded before the call; defensive accumulation (its candidates probe
also checks `parts[0].text`, which coincides with `accumTextDefensive`
under this chunk model). -/
def sentV1 (hist : List Turn) (ur : String) : String :=
  if hist.length == 0 then (if ur == "" then "start a mock interview" else ur)
  else ur

def pushedV1 (hist : List Turn) (ur : String) (reply : String) : List Turn :=
  (if hist.length == 0 then hist ++ [⟨"user", sentV1 hist ur⟩]
   else hist ++ [⟨"user", ur⟩]) ++ [⟨"model", reply⟩]

def handleTurnCoreV1 (env : Env) (store : Store) (sess : ChatSession)
    (constructed : Bool) (ur : String) : TurnResult :=
  match env.backend with
  | .error _ =>
    ⟨.err 500 failMessageV1, store, ⟨[sentV1 sess.history ur], 0, constructed⟩⟩
  | .ok chunks =>
    match env.saveError with
    | some _ =>
      ⟨.err 500 failMessageV1, store, ⟨[sentV1 sess.history ur], 1, constructed⟩⟩
    | none =>
      ⟨.ok (accumTextDefensive chunks)
          (pushedV1 sess.history ur (accumTextDefensive chunks)),
        upsert store
          ⟨sess.sessionId, sess.jobTitle,
            pushedV1 sess.history ur (accumTextDefensive chunks)⟩,
        ⟨[sentV1 sess.history ur], 1, constructed⟩⟩

/-- The interview handler of `part_001`: separate load try/catch
(refreshing `jobTitle`), long validation message. -/
def handleTurnV1 (env : Env) (store : Store) (req : Req) : TurnResult :=
  if missingField req then
    ⟨.err 400 missingFieldsMessage, store, noTurnEffects⟩
  else
    match env.loadError with
    | some _ => ⟨.err 500 dbFailMessage, store, noTurnEffects⟩
    | none =>
      handleTurnCoreV1 env store
        (sessionForRefresh store req.sessionId.asString req.jobTitle.asString).1
        (sessionForRefresh store req.sessionId.asString req.jobTitle.asString).2
        req.userResponse.asString

/-- Post-load phase of `part_002`: a brand-new session never calls the
backend — the opening question is hardcoded and the sentinel user turn and
the model turn are pushed directly; an existing session pushes the user
turn, streams with the plain accumulator, pushes the model turn. -/
def handleTurnCoreV2 (env : Env) (store : Store) (found : Option ChatSession)
    (sid jt ur : String) : TurnResult :=
  match found with
  | none =>
    match env.saveError with
    | some m =>
      ⟨.err (catchMessageV2 m).1 (catchMessageV2 m).2, store, ⟨[], 1, true⟩⟩
    | none =>
      ⟨.ok "Tell me about yourself."
          [⟨"user", "start a mock interview"⟩,
            ⟨"model", "Tell me about yourself."⟩],
        upsert store
          ⟨sid, jt,
            [⟨"user", "start a mock interview"⟩,
              ⟨"model", "Tell me about yourself."⟩]⟩,
        ⟨[], 1, true⟩⟩
  | some s =>
    match env.backend with
    | .error m =>
      ⟨.err (catchMessageV2 m).1 (catchMessageV2 m).2, store, ⟨[ur], 0, false⟩⟩
    | .ok chunks =>
      match accumText chunks with
      | .error m =>
        ⟨.err (catchMessageV2 m).1 (catchMessageV2 m).2, store, ⟨[ur], 0, false⟩⟩
      | .ok reply =>
        match env.saveError with
        | some m =>
          ⟨.err (catchMessageV2 m).1 (catchMessageV2 m).2, store, ⟨[ur], 1, false⟩⟩
        | none =>
          ⟨.ok reply ((s.history ++ [⟨"user", ur⟩]) ++ [⟨"model", reply⟩]),
            upsert store
              ⟨s.sessionId, s.jobTitle,
                (s.history ++ [⟨"user", ur⟩]) ++ [⟨"model", reply⟩]⟩,
            ⟨[ur], 1, false⟩⟩

/-- The interview handler of `part_002`. -/
def handleTurnV2 (env : Env) (store : Store) (req : Req) : TurnResult :=
  if missingField req then
    ⟨.err 400 missingFieldsMessage, store, noTurnEffects⟩
  else
    match env.loadError with
    | some m =>
      ⟨.err (catchMessageV2 m).1 (catchMessageV2 m).2, store, noTurnEffects⟩
    | none =>
      handleTurnCoreV2 env store (findOne store req.sessionId.asString)
        req.sessionId.asString req.jobTitle.asString req.userResponse.asString

/-- Roles strictly alternate from the given expectation (`userNext = true`
expects `"user"` at the head). -/
def rolesAlternate (userNext : Bool) : List Turn → Bool
  | [] => true
  | t :: ts =>
    (t.role == if userNext then "user" else "model") && rolesAlternate (!userNext) ts

/-- The spec's persistence invariant: roles alternate starting with
`"user"` and the length is even. -/
def historyWF (h : List Turn) : Bool :=
  rolesAlternate true h && h.length % 2 == 0

/-- The invariant over the whole session collection. -/
def storeWF (store : Store) : Bool := store.all fun s => historyWF s.history

theorem rolesAlternate_nil (b : Bool) : rolesAlternate b [] = true := rfl

theorem rolesAlternate_cons (b : Bool) (t : Turn) (ts : List Turn) :
    rolesAlternate b (t :: ts) =
      ((t.role == if b then "user" else "model") && rolesAlternate (!b) ts) := rfl

theorem rolesAlternate_append (h2 : List Turn) :
    ∀ (h1 : List Turn) (b : Bool),
      rolesAlternate b (h1 ++ h2) =
        (rolesAlternate b h1 &&
          rolesAlternate (if h1.length % 2 = 0 then b else !b) h2) := by
  intro h1
  induction h1 with
  | nil => intro b; simp [rolesAlternate_nil]
  | cons t ts ih =>
    intro b
    rw [List.cons_append, rolesAlternate_cons, rolesAlternate_cons, ih (!b)]
    simp only [List.length_cons]
    rcases Nat.mod_two_eq_zero_or_one ts.length with h | h
    · rw [if_pos h, if_neg (by omega : ¬ (ts.length + 1) % 2 = 0)]
      exact (Bool.and_assoc _ _ _).symm
    · rw [if_neg (by omega : ¬ ts.length % 2 = 0),
        if_pos (by omega : (ts.length + 1) % 2 = 0), Bool.not_not]
      exact (Bool.and_assoc _ _ _).symm

theorem historyWF_push2 (h : List Turn) (a b : String)
    (hw : historyWF h = true) :
    historyWF (h ++ [⟨"user", a⟩, ⟨"model", b⟩]) = true := by
  unfold historyWF at hw ⊢
  rw [Bool.and_eq_true] at hw
  obtain ⟨hroles, hlen⟩ := hw
  have hlen2 : h.length % 2 = 0 := by simpa using hlen
  rw [Bool.and_eq_true, rolesAlternate_append, hroles, if_pos hlen2]
  constructor
  · rfl
  · simp only [List.length_append, List.length_cons, List.length_nil, beq_iff_eq]
    omega

theorem storeWF_upsert (store : Store) (s : ChatSession)
    (h1 : storeWF store = true) (h2 : historyWF s.history = true) :
    storeWF (upsert store s) = true := by
  induction store with
  | nil => simp [upsert, storeWF, h2]
  | cons t ts ih =>
    unfold storeWF at h1
    simp only [List.all_cons, Bool.and_eq_true] at h1
    unfold upsert
    split
    · simp [storeWF, List.all_cons, h2, h1.2]
    · simp only [storeWF, List.all_cons, Bool.and_eq_true]
      exact ⟨h1.1, ih h1.2⟩

theorem findOne_wf (store : Store) (sid : String) (s : ChatSession)
    (h1 : storeWF store = true) (h : findOne store sid = some s) :
    historyWF s.history = true := by
  have hm : s ∈ store := List.mem_of_find?_eq_some h
  exact List.all_eq_true.mp h1 s hm

theorem findOne_upsert (store : Store) (s : ChatSession) :
    findOne (upsert store s) s.sessionId = some s := by
  induction store with
  | nil => simp [upsert, findOne, List.find?]
  | cons t ts ih =>
    unfold upsert
    split
    · simp [findOne, List.find?]
    · rename_i hne
      have hfalse : (t.sessionId == s.sessionId) = false := by
        simpa using hne
      unfold findOne at ih ⊢
      simp [List.find?, hfalse, ih]

theorem sessionFor_wf (store : Store) (sid jt : String)
    (h : storeWF store = true) :
    historyWF (sessionFor store sid jt).1.history = true := by
  unfold sessionFor
  cases hf : findOne store sid with
  | none => simp [historyWF, rolesAlternate]
  | some s => simpa using findOne_wf store sid s h hf

theorem sessionForRefresh_wf (store : Store) (sid jt : String)
    (h : storeWF store = true) :
    historyWF (sessionForRefresh store sid jt).1.history = true := by
  unfold sessionForRefresh
  cases hf : findOne store sid with
  | none => simp [historyWF, rolesAlternate]
  | some s => simpa using findOne_wf store sid s h hf

theorem userResponse_eq_str (req : Req) (h : missingField req = false) :
    req.userResponse = .str req.userResponse.asString := by
  unfold missingField at h
  cases hu : req.userResponse with
  | undef => rw [hu] at h; simp [JsVal.falsy] at h
  | str s => simp [JsVal.asString]


theorem handleTurnCore_ok (env : Env) (store : Store) (sess : ChatSession)
    (c : Bool) (ur : String) (r : String) (h2 : List Turn)
    (h : (handleTurnCore env store sess c ur).outcome = .ok r h2) :
    env.saveError = none ∧
    h2 = sess.history ++
      [⟨"user", effectiveMessage sess.history ur⟩, ⟨"model", r⟩] ∧
    handleTurnCore env store sess c ur =
      ⟨.ok r h2, upsert store ⟨sess.sessionId, sess.jobTitle, h2⟩,
        ⟨[effectiveMessage sess.history ur], 1, c⟩⟩ := by
  cases hb : env.backend with
  | error m => simp [handleTurnCore, hb] at h
  | ok chunks =>
    cases ha : accumText chunks with
    | error m => simp [handleTurnCore, hb, ha] at h
    | ok reply =>
      cases hs : env.saveError with
      | some m => simp [handleTurnCore, hb, ha, hs] at h
      | none =>
        simp only [handleTurnCore, hb, ha, hs, HandlerOutcome.ok.injEq] at h
        obtain ⟨hr, hh⟩ := h
        subst hr
        subst hh
        refine ⟨rfl, rfl, ?_⟩
        simp only [handleTurnCore, hb, ha, hs]

theorem handleTurn_ok_inv (env : Env) (store : Store) (req : Req)
    (r : String) (h2 : List Turn)
    (h : (handleTurn env store req).outcome = .ok r h2) :
    missingField req = false ∧ env.loadError = none ∧
    handleTurn env store req =
      handleTurnCore env store
        (sessionFor store req.sessionId.asString req.jobTitle.asString).1
        (sessionFor store req.sessionId.asString req.jobTitle.asString).2
        req.userResponse.asString := by
  cases hv : missingField req with
  | true => simp [handleTurn, hv] at h
  | false =>
    cases hl : env.loadError with
    | some m => simp [handleTurn, hv, hl] at h
    | none =>
      refine ⟨rfl, rfl, ?_⟩
      simp [handleTurn, hv, hl]

theorem handleTurnCoreV0_ok (env : Env) (store : Store) (sess : ChatSession)
    (c : Bool) (ur : String) (r : String) (h2 : List Turn)
    (h : (handleTurnCoreV0 env store sess c ur).outcome = .ok r h2) :
    env.saveError = none ∧
    h2 = pushedV0 sess.history ur r ∧
    handleTurnCoreV0 env store sess c ur =
      ⟨.ok r h2, upsert store ⟨sess.sessionId, sess.jobTitle, h2⟩,
        ⟨[sentV0 sess.history ur], 1, c⟩⟩ := by
  cases hb : env.backend with
  | error m => simp [handleTurnCoreV0, hb] at h
  | ok chunks =>
    cases hs : env.saveError with
    | some m => simp [handleTurnCoreV0, hb, hs] at h
    | none =>
      simp only [handleTurnCoreV0, hb, hs, HandlerOutcome.ok.injEq] at h
      obtain ⟨hr, hh⟩ := h
      subst hr
      subst hh
      refine ⟨rfl, rfl, ?_⟩
      simp only [handleTurnCoreV0, hb, hs]

theorem handleTurnV0_ok_inv (env : Env) (store : Store) (req : Req)
    (r : String) (h2 : List Turn)
    (h : (handleTurnV0 env store req).outcome = .ok r h2) :
    missingField req = false ∧ env.loadError = none ∧
    handleTurnV0 env store req =
      handleTurnCoreV0 env store
        (sessionForRefresh store req.sessionId.asString req.jobTitle.asString).1
        (sessionForRefresh store req.sessionId.asString req.jobTitle.asString).2
        req.userResponse.asString := by
  cases hv : missingField req with
  | true => simp [handleTurnV0, hv] at h
  | false =>
    cases hl : env.loadError with
    | some m => simp [handleTurnV0, hv, hl] at h
    | none => exact ⟨rfl, rfl, by simp [handleTurnV0, hv, hl]⟩

theorem handleTurnCoreV2_ok_none (env : Env) (store : Store)
    (sid jt ur r : String) (h2 : List Turn)
    (h : (handleTurnCoreV2 env store none sid jt ur).outcome = .ok r h2) :
    env.saveError = none ∧ r = "Tell me about yourself." ∧
    h2 = [⟨"user", "start a mock interview"⟩,
      ⟨"model", "Tell me about yourself."⟩] ∧
    handleTurnCoreV2 env store none sid jt ur =
      ⟨.ok r h2, upsert store ⟨sid, jt, h2⟩, ⟨[], 1, true⟩⟩ := by
  cases hs : env.saveError with
  | some m => simp [handleTurnCoreV2, hs] at h
  | none =>
    simp only [handleTurnCoreV2, hs, HandlerOutcome.ok.injEq] at h
    obtain ⟨hr, hh⟩ := h
    subst hr
    subst hh
    refine ⟨rfl, rfl, rfl, ?_⟩
    simp only [handleTurnCoreV2, hs]

theorem handleTurnCoreV2_ok_some (env : Env) (store : Store) (s : ChatSession)
    (sid jt ur r : String) (h2 : List Turn)
    (h : (handleTurnCoreV2 env store (some s) sid jt ur).outcome = .ok r h2) :
    env.saveError = none ∧
    h2 = (s.history ++ [⟨"user", ur⟩]) ++ [⟨"model", r⟩] ∧
    handleTurnCoreV2 env store (some s) sid jt ur =
      ⟨.ok r h2, upsert store ⟨s.sessionId, s.jobTitle, h2⟩,
        ⟨[ur], 1, false⟩⟩ := by
  cases hb : env.backend with
  | error m => simp [handleTurnCoreV2, hb] at h
  | ok chunks =>
    cases ha : accumText chunks with
    | error m => simp [handleTurnCoreV2, hb, ha] at h
    | ok reply =>
      cases hs : env.saveError with
      | some m => simp [handleTurnCoreV2, hb, ha, hs] at h
      | none =>
        simp only [handleTurnCoreV2, hb, ha, hs, HandlerOutcome.ok.injEq] at h
        obtain ⟨hr, hh⟩ := h
        subst hr
        subst hh
        refine ⟨rfl, rfl, ?_⟩
        simp only [handleTurnCoreV2, hb, ha, hs]

theorem handleTurnV2_ok_inv (env : Env) (store : Store) (req : Req)
    (r : String) (h2 : List Turn)
    (h : (handleTurnV2 env store req).outcome = .ok r h2) :
    missingField req = false ∧ env.loadError = none ∧
    handleTurnV2 env store req =
      handleTurnCoreV2 env store (findOne store req.sessionId.asString)
        req.sessionId.asString req.jobTitle.asString
        req.userResponse.asString := by
  cases hv : missingField req with
  | true => simp [handleTurnV2, hv] at h
  | false =>
    cases hl : env.loadError with
    | some m => simp [handleTurnV2, hv, hl] at h
    | none => exact ⟨rfl, rfl, by simp [handleTurnV2, hv, hl]⟩

theorem handleTurn_eq_core (env : Env) (store : Store) (req : Req)
    (hv : missingField req = false) (hl : env.loadError = none) :
    handleTurn env store req =
      handleTurnCore env store
        (sessionFor store req.sessionId.asString req.jobTitle.asString).1
        (sessionFor store req.sessionId.asString req.jobTitle.asString).2
        req.userResponse.asString := by
  simp [handleTurn, hv, hl]

theorem handleTurnCore_backend_fail (env : Env) (store : Store)
    (sess : ChatSession) (c : Bool) (ur m : String)
    (hb : env.backend = .error m) :
    handleTurnCore env store sess c ur =
      ⟨.err 500 (catchMessage m), store,
        ⟨[effectiveMessage sess.history ur], 0, c⟩⟩ := by
  simp [handleTurnCore, hb]

theorem handleTurn_load_fail (env : Env) (store : Store) (req : Req)
    (m : String)
    (hv : missingField req = false) (hl : env.loadError = some m) :
    handleTurn env store req =
      ⟨.err 500 (catchMessage m), store, noTurnEffects⟩ := by
  simp [handleTurn, hv, hl]

theorem handleTurnV1_load_fail (env : Env) (store : Store) (req : Req)
    (m : String)
    (hv : missingField req = false) (hl : env.loadError = some m) :
    handleTurnV1 env store req =
      ⟨.err 500 dbFailMessage, store, noTurnEffects⟩ := by
  simp [handleTurnV1, hv, hl]

theorem handleTurnCore_sent (env : Env) (store : Store) (sess : ChatSession)
    (c : Bool) (ur : String) :
    (handleTurnCore env store sess c ur).effects.sentMessages =
      [effectiveMessage sess.history ur] := by
  cases hb : env.backend with
  | error m => simp [handleTurnCore, hb]
  | ok chunks =>
    cases ha : accumText chunks with
    | error m => simp [handleTurnCore, hb, ha]
    | ok reply =>
      cases hs : env.saveError with
      | some m => simp [handleTurnCore, hb, ha, hs]
      | none => simp [handleTurnCore, hb, ha, hs]

theorem isOk_exists (o : HandlerOutcome) (h : o.isOk = true) :
    ∃ r h2, o = .ok r h2 := by
  cases o with
  | err st m => simp [HandlerOutcome.isOk] at h
  | ok r h2 => exact ⟨r, h2, rfl⟩

/-- C1 counterexample: in the head `server.js` revision, a successful call
with `userResponse` equal to the literal string "start interview" on an
existing two-turn session persists a history of three entries whose third
entry has role "model", so the stored history violates the claimed
alternation/even-length invariant. -/
theorem C1_counterexample :
    ((handleTurnV0 ⟨none, .ok [⟨.fn "Ok.", none⟩], none⟩
        [⟨"s1", "Engineer",
          [⟨"user", "start a mock interview"⟩,
            ⟨"model", "Tell me about yourself."⟩]⟩]
        ⟨.str "s1", .str "Engineer", .str "start interview"⟩).outcome.isOk
      = true) ∧
    ((handleTurnV0 ⟨none, .ok [⟨.fn "Ok.", none⟩], none⟩
        [⟨"s1", "Engineer",
          [⟨"user", "start a mock interview"⟩,
            ⟨"model", "Tell me about yourself."⟩]⟩]
        ⟨.str "s1", .str "Engineer", .str "start interview"⟩).store =
      [⟨"s1", "Engineer",
        [⟨"user", "start a mock interview"⟩,
          ⟨"model", "Tell me about yourself."⟩,
          ⟨"model", "Ok."⟩]⟩]) ∧
    storeWF ((handleTurnV0 ⟨none, .ok [⟨.fn "Ok.", none⟩], none⟩
        [⟨"s1", "Engineer",
          [⟨"user", "start a mock interview"⟩,
            ⟨"model", "Tell me about yourself."⟩]⟩]
        ⟨.str "s1", .str "Engineer", .str "start interview"⟩).store) = false := by
  refine ⟨rfl, rfl, rfl⟩

/-- C1 (amended): after any successful call, stored session histories
still strictly alternate user/model starting with "user" and keep even
length — unconditionally for the `part_000`/`part_003` handler and the
`part_002` handler, and for the head `server.js` handler provided the
request's `userResponse` is not the literal string "start interview"
(for which that revision appends only the model turn). -/
theorem C1_alternation_amended (env : Env) (store : Store) (req : Req)
    (hwf : storeWF store = true) :
    ((handleTurn env store req).outcome.isOk = true →
      storeWF (handleTurn env store req).store = true) ∧
    ((handleTurnV2 env store req).outcome.isOk = true →
      storeWF (handleTurnV2 env store req).store = true) ∧
    (req.userResponse ≠ JsVal.str "start interview" →
      (handleTurnV0 env store req).outcome.isOk = true →
      storeWF (handleTurnV0 env store req).store = true) := by
  refine ⟨?_, ?_, ?_⟩
  · intro hok
    obtain ⟨r, h2, hEq⟩ := isOk_exists _ hok
    obtain ⟨hv, hl, hRed⟩ := handleTurn_ok_inv env store req r h2 hEq
    rw [hRed] at hEq ⊢
    obtain ⟨hs, hh2, hFull⟩ := handleTurnCore_ok env store _ _ _ r h2 hEq
    rw [hFull]
    refine storeWF_upsert store _ hwf ?_
    rw [hh2]
    exact historyWF_push2 _ _ _ (sessionFor_wf store _ _ hwf)
  · intro hok
    obtain ⟨r, h2, hEq⟩ := isOk_exists _ hok
    obtain ⟨hv, hl, hRed⟩ := handleTurnV2_ok_inv env store req r h2 hEq
    rw [hRed] at hEq ⊢
    cases hf : findOne store req.sessionId.asString with
    | none =>
      rw [hf] at hEq
      obtain ⟨hs, hr, hh2, hFull⟩ :=
        handleTurnCoreV2_ok_none env store _ _ _ r h2 hEq
      rw [hFull]
      refine storeWF_upsert store _ hwf ?_
      rw [hh2]
      show historyWF
        [⟨"user", "start a mock interview"⟩,
          ⟨"model", "Tell me about yourself."⟩] = true
      decide
    | some s =>
      rw [hf] at hEq
      obtain ⟨hs, hh2, hFull⟩ :=
        handleTurnCoreV2_ok_some env store s _ _ _ r h2 hEq
      rw [hFull]
      refine storeWF_upsert store _ hwf ?_
      rw [hh2, List.append_assoc]
      exact historyWF_push2 _ _ _ (findOne_wf store _ s hwf hf)
  · intro hne hok
    obtain ⟨r, h2, hEq⟩ := isOk_exists _ hok
    obtain ⟨hv, hl, hRed⟩ := handleTurnV0_ok_inv env store req r h2 hEq
    rw [hRed] at hEq ⊢
    obtain ⟨hs, hh2, hFull⟩ := handleTurnCoreV0_ok env store _ _ _ r h2 hEq
    rw [hFull]
    refine storeWF_upsert store _ hwf ?_
    rw [hh2]
    have hstr := userResponse_eq_str req hv
    have hne2 : req.userResponse.asString ≠ "start interview" := by
      intro hcontra
      apply hne
      rw [hstr, hcontra]
    have hub : (req.userResponse.asString == "start interview") = false :=
      beq_eq_false_iff_ne.mpr hne2
    unfold pushedV0
    rw [if_neg (by simp [hub])]
    rw [List.append_assoc]
    exact historyWF_push2 _ _ _ (sessionForRefresh_wf store _ _ hwf)

/-- C1 witness: a concrete first request on an empty store succeeds in all
three handlers and leaves a store satisfying the invariant. -/
theorem C1_alternation_amended_witness :
    storeWF ((handleTurn ⟨none, .ok [⟨.fn "Hello.", none⟩], none⟩ []
        ⟨.str "s1", .str "Engineer", .str ""⟩).store) = true ∧
    storeWF ((handleTurnV2 ⟨none, .ok [⟨.fn "Hello.", none⟩], none⟩ []
        ⟨.str "s1", .str "Engineer", .str ""⟩).store) = true ∧
    storeWF ((handleTurnV0 ⟨none, .ok [⟨.fn "Hello.", none⟩], none⟩ []
        ⟨.str "s1", .str "Engineer", .str ""⟩).store) = true := by
  have h := C1_alternation_amended ⟨none, .ok [⟨.fn "Hello.", none⟩], none⟩ []
    ⟨.str "s1", .str "Engineer", .str ""⟩ (by decide)
  exact ⟨h.1 (by decide), h.2.1 (by decide), h.2.2 (by decide) (by decide)⟩

theorem findOne_sid (store : Store) (sid : String) (s : ChatSession)
    (h : findOne store sid = some s) : s.sessionId = sid := by
  have hp := List.find?_some h
  simpa using hp

/-- C2: evaluation at the failing input — in the head `server.js`
revision, a brand-new session with `userResponse = ""` sends
"start interview" to the backend but persists `""` (not the sentinel) as
the first user turn's text; the `part_000`/`part_003` revision records the
sentinel "start a mock interview" as the claim states. -/
theorem C2_first_turn_sentinel_eval :
    (handleTurnV0 ⟨none, .ok [⟨.fn "Hello.", none⟩], none⟩ []
        ⟨.str "s1", .str "Engineer", .str ""⟩) =
      ⟨.ok "Hello." [⟨"user", ""⟩, ⟨"model", "Hello."⟩],
        [⟨"s1", "Engineer", [⟨"user", ""⟩, ⟨"model", "Hello."⟩]⟩],
        ⟨["start interview"], 1, true⟩⟩ ∧
    (handleTurn ⟨none, .ok [⟨.fn "Hello.", none⟩], none⟩ []
        ⟨.str "s1", .str "Engineer", .str ""⟩).outcome =
      .ok "Hello."
        [⟨"user", "start a mock interview"⟩, ⟨"model", "Hello."⟩] :=
  ⟨rfl, rfl⟩

/-- C3: if the completion call throws, the `part_000`/`part_003` handler
(whose save comes only after the stream loop) performs no save, leaves the
store untouched — whether the session was newly created or pre-existing —
and responds 500. -/
theorem C3_no_persist_on_backend_failure (env : Env) (store : Store)
    (req : Req) (m : String)
    (hv : missingField req = false) (hl : env.loadError = none)
    (hb : env.backend = .error m) :
    (handleTurn env store req).outcome.status = 500 ∧
    (handleTurn env store req).effects.saveCalls = 0 ∧
    (handleTurn env store req).store = store := by
  rw [handleTurn_eq_core env store req hv hl,
    handleTurnCore_backend_fail env store _ _ _ m hb]
  exact ⟨rfl, rfl, rfl⟩

/-- C3 witness: a concrete backend failure on an existing session. -/
theorem C3_no_persist_on_backend_failure_witness :
    (handleTurn ⟨none, .error "Gemini API rate limit exceeded", none⟩
        [⟨"s1", "Engineer",
          [⟨"user", "start a mock interview"⟩,
            ⟨"model", "Tell me about yourself."⟩]⟩]
        ⟨.str "s1", .str "Engineer", .str "hi"⟩).outcome.status = 500 ∧
    (handleTurn ⟨none, .error "Gemini API rate limit exceeded", none⟩
        [⟨"s1", "Engineer",
          [⟨"user", "start a mock interview"⟩,
            ⟨"model", "Tell me about yourself."⟩]⟩]
        ⟨.str "s1", .str "Engineer", .str "hi"⟩).effects.saveCalls = 0 ∧
    (handleTurn ⟨none, .error "Gemini API rate limit exceeded", none⟩
        [⟨"s1", "Engineer",
          [⟨"user", "start a mock interview"⟩,
            ⟨"model", "Tell me about yourself."⟩]⟩]
        ⟨.str "s1", .str "Engineer", .str "hi"⟩).store =
      [⟨"s1", "Engineer",
        [⟨"user", "start a mock interview"⟩,
          ⟨"model", "Tell me about yourself."⟩]⟩] :=
  C3_no_persist_on_backend_failure _ _ _ "Gemini API rate limit exceeded"
    (by decide) rfl rfl

/-- C4 counterexample: in the `part_002` revision, a successful brand-new
session call performs one save but zero completion calls — refuting
"exactly one outbound completion call per successful call, never zero". -/
theorem C4_counterexample :
    ((handleTurnV2 ⟨none, .ok [⟨.fn "ignored", none⟩], none⟩ []
        ⟨.str "s1", .str "Engineer", .str ""⟩).outcome.isOk = true) ∧
    ((handleTurnV2 ⟨none, .ok [⟨.fn "ignored", none⟩], none⟩ []
        ⟨.str "s1", .str "Engineer", .str ""⟩).effects.sentMessages = []) ∧
    ((handleTurnV2 ⟨none, .ok [⟨.fn "ignored", none⟩], none⟩ []
        ⟨.str "s1", .str "Engineer", .str ""⟩).effects.saveCalls = 1) :=
  ⟨rfl, rfl, rfl⟩

/-- C4 (amended): every successful call performs exactly one upsert; the
`part_000`/`part_003` handler also performs exactly one completion call,
while the `part_002` handler performs one completion call on an existing
session and zero on a brand-new one (its opening question is hardcoded). -/
theorem C4_side_effects_amended (env : Env) (store : Store) (req : Req) :
    ((handleTurn env store req).outcome.isOk = true →
      (handleTurn env store req).effects.saveCalls = 1 ∧
      (handleTurn env store req).effects.sentMessages.length = 1) ∧
    ((handleTurnV2 env store req).outcome.isOk = true →
      (handleTurnV2 env store req).effects.saveCalls = 1 ∧
      (handleTurnV2 env store req).effects.sentMessages.length =
        (if findOne store req.sessionId.asString = none then 0 else 1)) := by
  constructor
  · intro hok
    obtain ⟨r, h2, hEq⟩ := isOk_exists _ hok
    obtain ⟨hv, hl, hRed⟩ := handleTurn_ok_inv env store req r h2 hEq
    rw [hRed] at hEq ⊢
    obtain ⟨hs, hh2, hFull⟩ := handleTurnCore_ok env store _ _ _ r h2 hEq
    rw [hFull]
    exact ⟨rfl, rfl⟩
  · intro hok
    obtain ⟨r, h2, hEq⟩ := isOk_exists _ hok
    obtain ⟨hv, hl, hRed⟩ := handleTurnV2_ok_inv env store req r h2 hEq
    rw [hRed] at hEq ⊢
    cases hf : findOne store req.sessionId.asString with
    | none =>
      rw [hf] at hEq
      obtain ⟨hs, hr, hh2, hFull⟩ :=
        handleTurnCoreV2_ok_none env store _ _ _ r h2 hEq
      rw [hFull]
      exact ⟨rfl, by simp⟩
    | some s =>
      rw [hf] at hEq
      obtain ⟨hs, hh2, hFull⟩ :=
        handleTurnCoreV2_ok_some env store s _ _ _ r h2 hEq
      rw [hFull]
      exact ⟨rfl, by simp⟩

/-- C4 witness: a concrete first request on an empty store. -/
theorem C4_side_effects_amended_witness :
    ((handleTurn ⟨none, .ok [⟨.fn "Hi.", none⟩], none⟩ []
        ⟨.str "s1", .str "Engineer", .str ""⟩).effects.saveCalls = 1 ∧
      (handleTurn ⟨none, .ok [⟨.fn "Hi.", none⟩], none⟩ []
        ⟨.str "s1", .str "Engineer", .str ""⟩).effects.sentMessages.length
        = 1) ∧
    ((handleTurnV2 ⟨none, .ok [⟨.fn "Hi.", none⟩], none⟩ []
        ⟨.str "s1", .str "Engineer", .str ""⟩).effects.saveCalls = 1 ∧
      (handleTurnV2 ⟨none, .ok [⟨.fn "Hi.", none⟩], none⟩ []
        ⟨.str "s1", .str "Engineer", .str ""⟩).effects.sentMessages.length
        = (if findOne []
              (JsVal.str "s1").asString = none then 0 else 1)) := by
  have h := C4_side_effects_amended ⟨none, .ok [⟨.fn "Hi.", none⟩], none⟩ []
    ⟨.str "s1", .str "Engineer", .str ""⟩
  exact ⟨h.1 (by decide), h.2 (by decide)⟩

/-- C5 counterexample: with an existing session stored under jobTitle
"Engineer", a successful `part_000`/`part_003` call supplying jobTitle
"Manager" persists the session still carrying "Engineer". -/
theorem C5_counterexample :
    ((handleTurn ⟨none, .ok [⟨.fn "Ok.", none⟩], none⟩
        [⟨"s1", "Engineer",
          [⟨"user", "start a mock interview"⟩,
            ⟨"model", "Tell me about yourself."⟩]⟩]
        ⟨.str "s1", .str "Manager", .str "I build APIs."⟩).outcome.isOk
      = true) ∧
    (findOne ((handleTurn ⟨none, .ok [⟨.fn "Ok.", none⟩], none⟩
        [⟨"s1", "Engineer",
          [⟨"user", "start a mock interview"⟩,
            ⟨"model", "Tell me about yourself."⟩]⟩]
        ⟨.str "s1", .str "Manager", .str "I build APIs."⟩).store) "s1" =
      some ⟨"s1", "Engineer",
        [⟨"user", "start a mock interview"⟩,
          ⟨"model", "Tell me about yourself."⟩,
          ⟨"user", "I build APIs."⟩, ⟨"model", "Ok."⟩]⟩) ∧
    "Engineer" ≠ "Manager" :=
  ⟨rfl, rfl, by decide⟩

/-- C5 (amended): on a call with an existing `sessionId`, the head
`server.js` handler refreshes the stored `jobTitle` to the supplied value
and retains every prior history entry in order; the `part_000`/`part_003`
handler leaves the stored `jobTitle` unchanged, likewise retaining all
prior history entries in order. -/
theorem C5_jobtitle_amended (env : Env) (store : Store) (req : Req)
    (s : ChatSession)
    (hf : findOne store req.sessionId.asString = some s) :
    ((handleTurnV0 env store req).outcome.isOk = true →
      ∃ s2, findOne (handleTurnV0 env store req).store
          req.sessionId.asString = some s2 ∧
        s2.jobTitle = req.jobTitle.asString ∧
        ∃ rest, s2.history = s.history ++ rest) ∧
    ((handleTurn env store req).outcome.isOk = true →
      ∃ s2, findOne (handleTurn env store req).store
          req.sessionId.asString = some s2 ∧
        s2.jobTitle = s.jobTitle ∧
        ∃ rest, s2.history = s.history ++ rest) := by
  have hsid := findOne_sid store _ s hf
  constructor
  · intro hok
    obtain ⟨r, h2, hEq⟩ := isOk_exists _ hok
    obtain ⟨hv, hl, hRed⟩ := handleTurnV0_ok_inv env store req r h2 hEq
    have hsf : sessionForRefresh store req.sessionId.asString
        req.jobTitle.asString =
        (⟨s.sessionId, req.jobTitle.asString, s.history⟩, false) := by
      simp [sessionForRefresh, hf]
    rw [hRed, hsf] at hEq ⊢
    obtain ⟨hs, hh2, hFull⟩ := handleTurnCoreV0_ok env store _ _ _ r h2 hEq
    rw [hFull]
    refine ⟨⟨s.sessionId, req.jobTitle.asString, h2⟩, ?_, rfl, ?_⟩
    · rw [← hsid]
      exact findOne_upsert store _
    · rw [hh2]
      unfold pushedV0
      cases hc : (req.userResponse.asString == "start interview") with
      | true => exact ⟨[⟨"model", r⟩], by simp⟩
      | false =>
        exact ⟨[⟨"user", req.userResponse.asString⟩, ⟨"model", r⟩], by simp⟩
  · intro hok
    obtain ⟨r, h2, hEq⟩ := isOk_exists _ hok
    obtain ⟨hv, hl, hRed⟩ := handleTurn_ok_inv env store req r h2 hEq
    have hsf : sessionFor store req.sessionId.asString
        req.jobTitle.asString = (s, false) := by
      simp [sessionFor, hf]
    rw [hRed, hsf] at hEq ⊢
    obtain ⟨hs, hh2, hFull⟩ := handleTurnCore_ok env store _ _ _ r h2 hEq
    rw [hFull]
    refine ⟨⟨s.sessionId, s.jobTitle, h2⟩, ?_, rfl, ?_⟩
    · rw [← hsid]
      exact findOne_upsert store _
    · rw [hh2]
      exact ⟨[⟨"user", effectiveMessage s.history req.userResponse.asString⟩,
        ⟨"model", r⟩], rfl⟩

/-- C5 witness: a concrete call on an existing session, in both
handlers. -/
theorem C5_jobtitle_amended_witness :
    (∃ s2, findOne ((handleTurnV0 ⟨none, .ok [⟨.fn "Ok.", none⟩], none⟩
        [⟨"s1", "Engineer",
          [⟨"user", "start a mock interview"⟩,
            ⟨"model", "Tell me about yourself."⟩]⟩]
        ⟨.str "s1", .str "Manager", .str "hi"⟩).store)
          (JsVal.str "s1").asString = some s2 ∧
      s2.jobTitle = (JsVal.str "Manager").asString ∧
      ∃ rest, s2.history =
        [⟨"user", "start a mock interview"⟩,
          ⟨"model", "Tell me about yourself."⟩] ++ rest) ∧
    (∃ s2, findOne ((handleTurn ⟨none, .ok [⟨.fn "Ok.", none⟩], none⟩
        [⟨"s1", "Engineer",
          [⟨"user", "start a mock interview"⟩,
            ⟨"model", "Tell me about yourself."⟩]⟩]
        ⟨.str "s1", .str "Manager", .str "hi"⟩).store)
          (JsVal.str "s1").asString = some s2 ∧
      s2.jobTitle = "Engineer" ∧
      ∃ rest, s2.history =
        [⟨"user", "start a mock interview"⟩,
          ⟨"model", "Tell me about yourself."⟩] ++ rest) := by
  have h := C5_jobtitle_amended ⟨none, .ok [⟨.fn "Ok.", none⟩], none⟩
    [⟨"s1", "Engineer",
      [⟨"user", "start a mock interview"⟩,
        ⟨"model", "Tell me about yourself."⟩]⟩]
    ⟨.str "s1", .str "Manager", .str "hi"⟩
    ⟨"s1", "Engineer",
      [⟨"user", "start a mock interview"⟩,
        ⟨"model", "Tell me about yourself."⟩]⟩ rfl
  exact ⟨h.1 (by decide), h.2 (by decide)⟩

/-- C6: if loading the session throws, the `part_001` handler answers 500
with the dedicated storage message, and the `part_000`/`part_003` handler
answers 500; in both, no session is constructed, no backend call is made,
no save is attempted, and the store is untouched. -/
theorem C6_no_persist_on_load_failure (env : Env) (store : Store)
    (req : Req) (m : String)
    (hv : missingField req = false) (hl : env.loadError = some m) :
    ((handleTurnV1 env store req).outcome = .err 500 dbFailMessage ∧
      (handleTurnV1 env store req).store = store ∧
      (handleTurnV1 env store req).effects = noTurnEffects) ∧
    ((handleTurn env store req).outcome.status = 500 ∧
      (handleTurn env store req).store = store ∧
      (handleTurn env store req).effects = noTurnEffects) := by
  rw [handleTurnV1_load_fail env store req m hv hl,
    handleTurn_load_fail env store req m hv hl]
  exact ⟨⟨rfl, rfl, rfl⟩, ⟨rfl, rfl, rfl⟩⟩

/-- C6 witness: a concrete load failure. -/
theorem C6_no_persist_on_load_failure_witness :
    ((handleTurnV1 ⟨some "Database connection lost", .ok [], none⟩
        [⟨"s2", "Analyst", []⟩]
        ⟨.str "s1", .str "Engineer", .str "hi"⟩).outcome =
      .err 500 dbFailMessage ∧
      (handleTurnV1 ⟨some "Database connection lost", .ok [], none⟩
        [⟨"s2", "Analyst", []⟩]
        ⟨.str "s1", .str "Engineer", .str "hi"⟩).store =
        [⟨"s2", "Analyst", []⟩] ∧
      (handleTurnV1 ⟨some "Database connection lost", .ok [], none⟩
        [⟨"s2", "Analyst", []⟩]
        ⟨.str "s1", .str "Engineer", .str "hi"⟩).effects = noTurnEffects) ∧
    ((handleTurn ⟨some "Database connection lost", .ok [], none⟩
        [⟨"s2", "Analyst", []⟩]
        ⟨.str "s1", .str "Engineer", .str "hi"⟩).outcome.status = 500 ∧
      (handleTurn ⟨some "Database connection lost", .ok [], none⟩
        [⟨"s2", "Analyst", []⟩]
        ⟨.str "s1", .str "Engineer", .str "hi"⟩).store =
        [⟨"s2", "Analyst", []⟩] ∧
      (handleTurn ⟨some "Database connection lost", .ok [], none⟩
        [⟨"s2", "Analyst", []⟩]
        ⟨.str "s1", .str "Engineer", .str "hi"⟩).effects = noTurnEffects) :=
  C6_no_persist_on_load_failure _ _ _ "Database connection lost"
    (by decide) rfl

/-- C7: evaluation at the failing input — a request missing `sessionId`
gets 400 from every revision, but the head `server.js` revision answers
with the short body "Missing sessionId, jobTitle, or userResponse" rather
than the claimed (and repo-tested) "... in request body." message, while
the `part_000`/`part_003` revision answers the claimed message; a
present-but-empty `userResponse` passes validation. -/
theorem C7_validation_eval :
    ((handleTurnV0 ⟨none, .ok [], none⟩ []
        ⟨.undef, .str "Developer", .str "hello"⟩).outcome =
      .err 400 "Missing sessionId, jobTitle, or userResponse") ∧
    ((handleTurn ⟨none, .ok [], none⟩ []
        ⟨.undef, .str "Developer", .str "hello"⟩).outcome =
      .err 400 missingFieldsMessage) ∧
    ("Missing sessionId, jobTitle, or userResponse" ≠
      missingFieldsMessage) ∧
    ((handleTurn ⟨none, .ok [⟨.fn "Hi.", none⟩], none⟩ []
        ⟨.str "s1", .str "Engineer", .str ""⟩).outcome.status = 200) :=
  ⟨rfl, rfl, by decide, rfl⟩

theorem chunkStep_eq (acc : String) (c : Chunk) :
    chunkStep acc c =
      acc ++ (if specChunkRecognized c then specChunkText c else "") := by
  obtain ⟨ct, cand⟩ := c
  cases ct <;> cases cand <;>
    simp [chunkStep, specChunkRecognized, specChunkText, String.append_empty]

theorem accumTextDefensive_spec_aux (chunks : List Chunk) :
    ∀ acc : String, chunks.foldl chunkStep acc = acc ++ specAccum chunks := by
  induction chunks with
  | nil =>
    intro acc
    show acc = acc ++ specAccum []
    rw [show specAccum [] = "" from rfl, String.append_empty]
  | cons c cs ih =>
    intro acc
    rw [List.foldl_cons, ih, chunkStep_eq,
      show specAccum (c :: cs) =
        (if specChunkRecognized c then specChunkText c else "") ++
          specAccum cs from rfl,
      String.append_assoc]

theorem accumTextDefensive_spec (chunks : List Chunk) :
    accumTextDefensive chunks = specAccum chunks := by
  have h := accumTextDefensive_spec_aux chunks ""
  unfold accumTextDefensive
  rw [h]
  exact String.empty_append _

theorem specAccum_unrecognized (chunks : List Chunk)
    (h : ∀ c ∈ chunks, specChunkRecognized c = false) :
    specAccum chunks = "" := by
  induction chunks with
  | nil => rfl
  | cons c cs ih =>
    show (if specChunkRecognized c then specChunkText c else "") ++
      specAccum cs = ""
    rw [h c (List.mem_cons_self c cs), if_neg Bool.false_ne_true,
      ih (fun x hx => h x (List.mem_cons_of_mem c hx)), String.append_empty]

/-- C8 counterexample: the `part_000`/`part_003` accumulator invokes
`chunk.text()` unconditionally, so a single chunk exposing its text as a
plain string field makes the whole call fail with a 500 instead of being
extracted and concatenated. -/
theorem C8_counterexample :
    ((handleTurn ⟨none, .ok [⟨.field "hi", none⟩], none⟩ []
        ⟨.str "s1", .str "Engineer", .str "hello"⟩).outcome.status
      = 500) ∧
    ((handleTurn ⟨none, .ok [⟨.field "hi", none⟩], none⟩ []
        ⟨.str "s1", .str "Engineer", .str "hello"⟩).effects.saveCalls
      = 0) :=
  ⟨rfl, rfl⟩

/-- C8 (amended): the defensive accumulator of the head `server.js`
revision (and `part_001`) extracts, for each streamed chunk, the text of
the first matching shape among accessor / string field / nested
candidates path, concatenating in stream order with unrecognized chunks
contributing nothing; when all chunks are unrecognized the accumulated
reply is the empty string and the call still succeeds.  The
`part_000`/`part_003`/second-revision accumulator instead calls the
accessor unconditionally and fails the call on any other shape. -/
theorem C8_accumulation_amended (env : Env) (store : Store) (req : Req)
    (chunks : List Chunk)
    (hv : missingField req = false) (hl : env.loadError = none)
    (hb : env.backend = .ok chunks) (hs : env.saveError = none) :
    accumTextDefensive chunks = specAccum chunks ∧
    ((∀ c ∈ chunks, specChunkRecognized c = false) →
      accumTextDefensive chunks = "" ∧
      ∃ h2, (handleTurnV0 env store req).outcome = .ok "" h2) := by
  refine ⟨accumTextDefensive_spec chunks, fun hall => ?_⟩
  have hz : accumTextDefensive chunks = "" := by
    rw [accumTextDefensive_spec]
    exact specAccum_unrecognized chunks hall
  refine ⟨hz, ?_⟩
  refine ⟨pushedV0 (sessionForRefresh store req.sessionId.asString
    req.jobTitle.asString).1.history req.userResponse.asString "", ?_⟩
  simp only [handleTurnV0, hv, hl, Bool.false_eq_true, if_false]
  simp only [handleTurnCoreV0, hb, hs, hz]

/-- C8 witness: a stream consisting of one shapeless chunk. -/
theorem C8_accumulation_amended_witness :
    accumTextDefensive [⟨.other, none⟩] = specAccum [⟨.other, none⟩] ∧
    (accumTextDefensive [⟨.other, none⟩] = "" ∧
      ∃ h2, (handleTurnV0 ⟨none, .ok [⟨.other, none⟩], none⟩ []
        ⟨.str "s1", .str "Engineer", .str "hi"⟩).outcome = .ok "" h2) := by
  have h := C8_accumulation_amended ⟨none, .ok [⟨.other, none⟩], none⟩ []
    ⟨.str "s1", .str "Engineer", .str "hi"⟩ [⟨.other, none⟩]
    (by decide) rfl rfl rfl
  exact ⟨h.1, h.2 (by decide)⟩

/-- C9: on an existing session with at least two turns and an empty
`userResponse`, the `part_000`/`part_003` handler forwards the empty
string verbatim to the backend, and on success the appended user turn's
text is exactly the empty string (no sentinel substitution). -/
theorem C9_empty_turn_literal (env : Env) (store : Store) (req : Req)
    (s : ChatSession)
    (hv : missingField req = false) (hl : env.loadError = none)
    (hf : findOne store req.sessionId.asString = some s)
    (hlen : 2 ≤ s.history.length)
    (hur : req.userResponse = .str "") :
    (handleTurn env store req).effects.sentMessages = [""] ∧
    (∀ r h2, (handleTurn env store req).outcome = .ok r h2 →
      h2 = s.history ++ [⟨"user", ""⟩, ⟨"model", r⟩]) := by
  have hsf : sessionFor store req.sessionId.asString
      req.jobTitle.asString = (s, false) := by
    simp [sessionFor, hf]
  have hne : (s.history.length == 0) = false := by
    rw [beq_eq_false_iff_ne]
    omega
  have hmsg : effectiveMessage s.history req.userResponse.asString = "" := by
    simp [effectiveMessage, hur, JsVal.asString, hne]
  rw [handleTurn_eq_core env store req hv hl, hsf]
  constructor
  · rw [handleTurnCore_sent]
    show [effectiveMessage s.history req.userResponse.asString] = [""]
    rw [hmsg]
  · intro r h2 hEq
    obtain ⟨hs, hh2, hFull⟩ := handleTurnCore_ok env store _ _ _ r h2 hEq
    rw [hh2]
    show s.history ++
      [⟨"user", effectiveMessage s.history req.userResponse.asString⟩,
        ⟨"model", r⟩] =
      s.history ++ [⟨"user", ""⟩, ⟨"model", r⟩]
    rw [hmsg]

/-- C9 witness: a concrete empty follow-up turn on a two-turn session. -/
theorem C9_empty_turn_literal_witness :
    (handleTurn ⟨none, .ok [⟨.fn "More?", none⟩], none⟩
        [⟨"s1", "Engineer",
          [⟨"user", "start a mock interview"⟩,
            ⟨"model", "Tell me about yourself."⟩]⟩]
        ⟨.str "s1", .str "Engineer", .str ""⟩).effects.sentMessages
      = [""] ∧
    ([⟨"user", "start a mock interview"⟩,
        ⟨"model", "Tell me about yourself."⟩,
        ⟨"user", ""⟩, ⟨"model", "More?"⟩] : List Turn) =
      [⟨"user", "start a mock interview"⟩,
        ⟨"model", "Tell me about yourself."⟩] ++
        [⟨"user", ""⟩, ⟨"model", "More?"⟩] := by
  have h := C9_empty_turn_literal
    ⟨none, .ok [⟨.fn "More?", none⟩], none⟩
    [⟨"s1", "Engineer",
      [⟨"user", "start a mock interview"⟩,
        ⟨"model", "Tell me about yourself."⟩]⟩]
    ⟨.str "s1", .str "Engineer", .str ""⟩
    ⟨"s1", "Engineer",
      [⟨"user", "start a mock interview"⟩,
        ⟨"model", "Tell me about yourself."⟩]⟩
    (by decide) rfl rfl (by decide) rfl
  exact ⟨h.1, h.2 "More?" _ rfl⟩

theorem getLast?_append_pair (h : List Turn) (u m : Turn) :
    (h ++ [u, m]).getLast? = some m := by
  rw [show h ++ [u, m] = (h ++ [u]) ++ [m] from
    (List.append_assoc h [u] [m]).symm]
  exact List.getLast?_concat _

/-- C10: on every successful call of the `part_000`/`part_003` handler
and of the `part_002` handler, the body's response equals the text of the
last entry of the returned history, that entry has role "model", and the
returned history is exactly the history of the session record passed to
the save that persisted it. -/
theorem C10_response_last_model (env : Env) (store : Store) (req : Req)
    (r : String) (h2 : List Turn) :
    ((handleTurn env store req).outcome = .ok r h2 →
      h2.getLast? = some ⟨"model", r⟩ ∧
      ∃ s2, findOne (handleTurn env store req).store
          req.sessionId.asString = some s2 ∧ s2.history = h2) ∧
    ((handleTurnV2 env store req).outcome = .ok r h2 →
      h2.getLast? = some ⟨"model", r⟩ ∧
      ∃ s2, findOne (handleTurnV2 env store req).store
          req.sessionId.asString = some s2 ∧ s2.history = h2) := by
  constructor
  · intro hEq
    obtain ⟨hv, hl, hRed⟩ := handleTurn_ok_inv env store req r h2 hEq
    rw [hRed] at hEq ⊢
    cases hf : findOne store req.sessionId.asString with
    | none =>
      have hsf : sessionFor store req.sessionId.asString
          req.jobTitle.asString =
          (⟨req.sessionId.asString, req.jobTitle.asString, []⟩, true) := by
        simp [sessionFor, hf]
      rw [hsf] at hEq ⊢
      obtain ⟨hs, hh2, hFull⟩ := handleTurnCore_ok env store _ _ _ r h2 hEq
      rw [hFull]
      refine ⟨?_, ⟨req.sessionId.asString, req.jobTitle.asString, h2⟩,
        findOne_upsert store _, rfl⟩
      rw [hh2]
      exact getLast?_append_pair _ _ _
    | some s =>
      have hsid := findOne_sid store _ s hf
      have hsf : sessionFor store req.sessionId.asString
          req.jobTitle.asString = (s, false) := by
        simp [sessionFor, hf]
      rw [hsf] at hEq ⊢
      obtain ⟨hs, hh2, hFull⟩ := handleTurnCore_ok env store _ _ _ r h2 hEq
      rw [hFull]
      constructor
      · rw [hh2]
        exact getLast?_append_pair _ _ _
      · refine ⟨⟨s.sessionId, s.jobTitle, h2⟩, ?_, rfl⟩
        rw [← hsid]
        exact findOne_upsert store _
  · intro hEq
    obtain ⟨hv, hl, hRed⟩ := handleTurnV2_ok_inv env store req r h2 hEq
    rw [hRed] at hEq ⊢
    cases hf : findOne store req.sessionId.asString with
    | none =>
      rw [hf] at hEq
      obtain ⟨hs, hr, hh2, hFull⟩ :=
        handleTurnCoreV2_ok_none env store _ _ _ r h2 hEq
      rw [hFull]
      constructor
      · rw [hh2, hr]
        rfl
      · exact ⟨⟨req.sessionId.asString, req.jobTitle.asString, h2⟩,
          findOne_upsert store _, rfl⟩
    | some s =>
      rw [hf] at hEq
      have hsid := findOne_sid store _ s hf
      obtain ⟨hs, hh2, hFull⟩ :=
        handleTurnCoreV2_ok_some env store s _ _ _ r h2 hEq
      rw [hFull]
      constructor
      · rw [hh2]
        exact List.getLast?_concat _
      · refine ⟨⟨s.sessionId, s.jobTitle, h2⟩, ?_, rfl⟩
        rw [← hsid]
        exact findOne_upsert store _

/-- C10 witness: a concrete first request whose streamed reply makes both
handlers produce the same response and history. -/
theorem C10_response_last_model_witness :
    (([⟨"user", "start a mock interview"⟩,
        ⟨"model", "Tell me about yourself."⟩] : List Turn).getLast? =
      some ⟨"model", "Tell me about yourself."⟩ ∧
      ∃ s2, findOne ((handleTurn
          ⟨none, .ok [⟨.fn "Tell me about yourself.", none⟩], none⟩ []
          ⟨.str "s1", .str "Engineer", .str ""⟩).store)
          (JsVal.str "s1").asString = some s2 ∧
        s2.history = [⟨"user", "start a mock interview"⟩,
          ⟨"model", "Tell me about yourself."⟩]) ∧
    (([⟨"user", "start a mock interview"⟩,
        ⟨"model", "Tell me about yourself."⟩] : List Turn).getLast? =
      some ⟨"model", "Tell me about yourself."⟩ ∧
      ∃ s2, findOne ((handleTurnV2
          ⟨none, .ok [⟨.fn "Tell me about yourself.", none⟩], none⟩ []
          ⟨.str "s1", .str "Engineer", .str ""⟩).store)
          (JsVal.str "s1").asString = some s2 ∧
        s2.history = [⟨"user", "start a mock interview"⟩,
          ⟨"model", "Tell me about yourself."⟩]) := by
  have h := C10_response_last_model
    ⟨none, .ok [⟨.fn "Tell me about yourself.", none⟩], none⟩ []
    ⟨.str "s1", .str "Engineer", .str ""⟩ "Tell me about yourself."
    [⟨"user", "start a mock interview"⟩,
      ⟨"model", "Tell me about yourself."⟩]
  exact ⟨h.1 rfl, h.2 rfl⟩
